import Mathlib

/-!
Shallow embedding of `src/app_product/models.py` (an e-commerce catalog data
layer: Category, Brand, Product, Review) and proofs about its logic:

* label resolution for Category/Brand codes (`Category.__str__`, `Brand.__str__`);
* the review aggregator (`Product.get_count_total_reviews`,
  `Product.get_review_percentage`), modelled over exact rationals;
* the rating normalizer (`Review.clean`, `Review.save`), modelled as a state
  machine over the rate field of a review, its transient `is_cleaned` flag,
  and the value last written to the store;
* the product display string (`Product.__str__`);
* foreign-key metadata and the referential action applied on deletion.

Python `None` is modelled by `Option.none`; a Python `TypeError` raised by a
comparison with `None` is modelled by `Except.error`.
-/

set_option autoImplicit false

namespace AppProduct

/-! ### Label resolution (models.py, `Category.__str__` lines 27-37 and
`Brand.__str__` lines 61-71)

Both methods scan the enumerated (code, label) pairs in order, return the
label of the first pair whose code equals the stored name, and fall through
to the literal string "Unknown". -/

def lookupLabel : List (String × String) → String → String
  | [], _ => "Unknown"
  | item :: rest, name => if name = item.1 then item.2 else lookupLabel rest name

namespace Category

def CATEGORIES : List (String × String) :=
  [("ph", "Phones"), ("ga", "Gaming"), ("co", "Computing")]

def str (name : String) : String := lookupLabel CATEGORIES name

end Category

namespace Brand

def BRANDS : List (String × String) :=
  [("sa", "SAMSUNG"), ("op", "OPPO"), ("ko", "KONAMI"),
   ("so", "SONY"), ("de", "DELL"), ("hp", "HP")]

def str (name : String) : String := lookupLabel BRANDS name

end Brand

/-! ### Review aggregator (models.py, `Product` lines 85-122)

The reviews associated with a product are represented by the list of their
integer `rate` values.  Arithmetic is carried out over exact rationals;
`round(x, 1)` is modelled as rounding `10 * x` to the nearest integer and
dividing by 10 (no claim proved below depends on the tie-breaking
direction). -/

def round1 (x : ℚ) : ℚ := (round (10 * x) : ℤ) / 10

namespace Product

def get_count_total_reviews (rates : List Int) : Nat := rates.length

def get_review_percentage (rates : List Int) : ℚ :=
  let total_rate : ℚ := (rates.length : ℚ) * 5
  let rate_1 : ℚ := (rates.count 1 : ℚ) * 1
  let rate_2 : ℚ := (rates.count 2 : ℚ) * 2
  let rate_3 : ℚ := (rates.count 3 : ℚ) * 3
  let rate_4 : ℚ := (rates.count 4 : ℚ) * 4
  let rate_5 : ℚ := (rates.count 5 : ℚ) * 5
  let different_rate : ℚ := rate_1 + rate_2 + rate_3 + rate_4 + rate_5
  if total_rate = 0 then 0
  else round1 (different_rate / total_rate * 100 / 20)

end Product

/-- Mean of all individual ratings, as the equivalent form in the spec
describes it. -/
def average_rating (rates : List Int) : ℚ := (rates.sum : ℚ) / (rates.length : ℚ)

/-- Review score as the claimed equivalent algorithm of the spec:
`stars = round(average_rating, 1)`. -/
def stars_spec (rates : List Int) : ℚ := round1 (average_rating rates)

/-- The worked example of the spec: 26 reviews rated 1, 6 rated 2, 34 rated 3,
70 rated 4 and 296 rated 5 (432 reviews in total). -/
def worked_example_rates : List Int :=
  List.replicate 26 1 ++ List.replicate 6 2 ++ List.replicate 34 3
    ++ List.replicate 70 4 ++ List.replicate 296 5

/-! ### Product display string (models.py, `Product.__str__` lines 82-83)

`f string slicing` works on characters, so a title is modelled as a list of
characters.  Python `str.capitalize()` uppercases the first character and
lowercases the rest. -/

def pyCapitalize : List Char → List Char
  | [] => []
  | c :: cs => c.toUpper :: cs.map Char.toLower

namespace Product

/-- `Product.__str__`: the title sliced to its first 20 characters, then
capitalized. -/
def str (title : List Char) : List Char := pyCapitalize (title.take 20)

end Product

/-- Display string as the claim words it: the first 20 characters of the
title, with the character at position 0 uppercased and every remaining
character lowercased. -/
def display_spec (title : List Char) : List Char :=
  (title.take 20).mapIdx fun i c => if i = 0 then c.toUpper else c.toLower

/-! ### Rating normalizer (models.py, `Review` lines 125-170)

The review state carries the `rate` field (`none` models Python `None`), the
transient `is_cleaned` flag (class default `False`), and the rate value last
written to the store (`none` when the record has never been persisted). -/

structure ReviewState where
  rate : Option Int
  is_cleaned : Bool
  stored : Option Int
  deriving DecidableEq, Repr

/-- Modelled from the spec: the framework persistence collaborator
(`super().save()` in models.py) writes the current field values of the
record to the store. -/
def framework_persist (s : ReviewState) : ReviewState :=
  { s with stored := s.rate }

/-- `Review.clean` (models.py lines 144-159): sets `is_cleaned`, clamps an
absent or below-1 rate to 1 and an above-5 rate to 5, and on the in-range
branch calls `super().save()`. -/
def Review.clean (s : ReviewState) : ReviewState :=
  let s1 : ReviewState := { s with is_cleaned := true }
  match s1.rate with
  | none => { s1 with rate := some 1 }
  | some r =>
    if r < 1 then { s1 with rate := some 1 }
    else if r > 5 then { s1 with rate := some 5 }
    else framework_persist s1

/-- Modelled from the spec: `full_clean()` is the full-validation entry point
of the framework, which runs the `clean` step of the model (spec 4.2: running
full validation sets the normalized flag and clamps the rating). -/
def Review.full_clean (s : ReviewState) : ReviewState := Review.clean s

/-- `Review.save` (models.py lines 161-170).  When `is_cleaned` is false the
guard evaluates `self.rate < 1`, which raises a `TypeError` in Python when
`rate` is `None`; otherwise an out-of-range rate goes through `full_clean()`
and every other case calls `super().save()` directly. -/
def Review.save (s : ReviewState) : Except String ReviewState :=
  if s.is_cleaned = false then
    match s.rate with
    | none => Except.error "TypeError: unorderable types: NoneType and int"
    | some r =>
      if r < 1 ∨ r > 5 then Except.ok (Review.full_clean s)
      else Except.ok (framework_persist s)
  else Except.ok (framework_persist s)

/-! ### Record store and referential actions (models.py lines 56-57, 76, 130)

Foreign keys in the source carry a nullability flag and an on-delete
referential action.  `Review.product` is declared
`models.ForeignKey(Product, null=True, on_delete=models.CASCADE)`
(models.py line 130). -/

inductive OnDelete
  | CASCADE
  | SET_NULL
  deriving DecidableEq, Repr

structure ForeignKeyMeta where
  null : Bool
  on_delete : OnDelete
  deriving DecidableEq, Repr

/-- Field metadata of `Review.product`, from models.py line 130. -/
def Review.product_field : ForeignKeyMeta :=
  { null := true, on_delete := OnDelete.CASCADE }

/-- Modelled from the spec: the persistence collaborator accepts storing a
row whose reference column holds a value, or holds nothing when the column
is declared nullable (spec section 3 reads null=True references as
optional). -/
def fk_value_storable (meta : ForeignKeyMeta) (ref : Option Nat) : Bool :=
  ref.isSome || meta.null

/-- A stored review row: its (possibly absent) product reference and its
rate. -/
structure ReviewRow where
  product : Option Nat
  rate : Int
  deriving DecidableEq, Repr

/-- The record store: product identifiers and review rows. -/
structure Store where
  products : List Nat
  reviews : List ReviewRow
  deriving DecidableEq, Repr

/-- Modelled from the spec: the referential action the persistence
collaborator applies to dependent review rows when a product is deleted
(spec sections 3 and 6: cascade deletes the dependent rows, set-null clears
their references). -/
def apply_on_delete (mode : OnDelete) (pid : Nat) (rows : List ReviewRow) : List ReviewRow :=
  match mode with
  | OnDelete.CASCADE => rows.filter (fun r => r.product != some pid)
  | OnDelete.SET_NULL =>
      rows.map (fun r => if r.product = some pid then { r with product := none } else r)

/-- Modelled from the spec: deleting a product removes it from the store and
applies the on-delete action declared on `Review.product` (CASCADE, models.py
line 130) to the review rows. -/
def delete_product (s : Store) (pid : Nat) : Store :=
  { products := s.products.filter (fun q => q != pid),
    reviews := apply_on_delete Review.product_field.on_delete pid s.reviews }

/-- Referential consistency: every present product reference of a review row
names a product that exists in the store. -/
def consistent (s : Store) : Prop :=
  ∀ r ∈ s.reviews, ∀ q : Nat, r.product = some q → q ∈ s.products

/-- Concrete store used by the cascade witness: two products, one review
each. -/
def store_example : Store :=
  { products := [1, 2],
    reviews := [{ product := some 1, rate := 5 }, { product := some 2, rate := 3 }] }

end AppProduct

namespace AppProduct

/-! ### Helper lemmas -/

/-- The per-rating weighted sum of the aggregator equals the plain sum of the
ratings whenever every rating lies in [1, 5]. -/
theorem weighted_count_sum (rates : List Int)
    (hin : ∀ r ∈ rates, 1 ≤ r ∧ r ≤ 5) :
    (rates.count 1 : ℤ) * 1 + (rates.count 2 : ℤ) * 2 + (rates.count 3 : ℤ) * 3
      + (rates.count 4 : ℤ) * 4 + (rates.count 5 : ℤ) * 5 = rates.sum := by
  induction rates with
  | nil => simp
  | cons r rs ih =>
    obtain ⟨h1, h2⟩ := hin r (List.mem_cons_self r rs)
    have ihs := ih (fun x hx => hin x (List.mem_cons_of_mem r hx))
    interval_cases r <;>
      · simp [List.count_cons]
        omega

/-- Index-blind lowercasing by `mapIdx` is a plain `map`. -/
theorem mapIdx_toLower (l : List Char) :
    (l.mapIdx fun _ c => c.toLower) = l.map Char.toLower := by
  induction l with
  | nil => rfl
  | cons d ds ih => simp [List.mapIdx_cons, ih]

/-- Python capitalize, phrased per character position. -/
theorem pyCapitalize_eq_idx (l : List Char) :
    pyCapitalize l = l.mapIdx fun i c => if i = 0 then c.toUpper else c.toLower := by
  cases l with
  | nil => rfl
  | cons c cs => simp [pyCapitalize, List.mapIdx_cons, mapIdx_toLower]

/-! ### Claim theorems -/

/-- Claim C1: the claim says that saving with the normalized flag false
yields a STORED rating in [1, 5] (0 clamps to 1, 9 clamps to 5).  Evaluating
the code at the failing inputs: the rate field is clamped correctly, but on
both clamp branches `clean` returns without any persist call, so the store is
untouched (`stored` stays `none`); only the in-range branch actually
persists. -/
theorem review_save_clamps_but_does_not_persist :
    Review.save { rate := some 0, is_cleaned := false, stored := none } =
      Except.ok { rate := some 1, is_cleaned := true, stored := none } ∧
    Review.save { rate := some 9, is_cleaned := false, stored := none } =
      Except.ok { rate := some 5, is_cleaned := true, stored := none } ∧
    Review.save { rate := some 3, is_cleaned := false, stored := none } =
      Except.ok { rate := some 3, is_cleaned := false, stored := some 3 } :=
  ⟨rfl, rfl, rfl⟩

/-- Claim C2: the claim says no rating value, including an absent (`None`)
one, makes `save` fail fatally.  Evaluating the code at the failing input:
with the normalized flag false and an absent rate, the guard in `save`
compares `None` with 1 and raises a `TypeError` before `clean` can clamp. -/
theorem review_save_absent_rate_raises :
    Review.save { rate := none, is_cleaned := false, stored := none } =
      Except.error "TypeError: unorderable types: NoneType and int" := rfl

/-- Claim C3: when the normalized flag is true, `save` short-circuits the
guard and persists immediately with the current rating value unchanged, even
when the rating lies outside [1, 5]. -/
theorem review_save_trusted_path_bypasses (r : Int) (st : Option Int) :
    Review.save { rate := some r, is_cleaned := true, stored := st } =
      Except.ok { rate := some r, is_cleaned := true, stored := some r } := rfl

/-- Claim C4: for a product with at least one review, all rated within
[1, 5], the percentage-detour score of `get_review_percentage` equals the
mean of the individual ratings rounded to one decimal. -/
theorem review_percentage_eq_rounded_mean (rates : List Int)
    (hne : rates ≠ []) (hin : ∀ r ∈ rates, 1 ≤ r ∧ r ≤ 5) :
    Product.get_review_percentage rates = stars_spec rates := by
  have hn0 : rates.length ≠ 0 := by simpa [List.length_eq_zero] using hne
  have hn : (rates.length : ℚ) ≠ 0 := Nat.cast_ne_zero.mpr hn0
  have hw : ((rates.count 1 : ℚ)) * 1 + (rates.count 2 : ℚ) * 2 + (rates.count 3 : ℚ) * 3
      + (rates.count 4 : ℚ) * 4 + (rates.count 5 : ℚ) * 5 = (rates.sum : ℚ) := by
    exact_mod_cast congrArg (fun z : ℤ => (z : ℚ)) (weighted_count_sum rates hin)
  have htot : ((rates.length : ℚ) * 5) ≠ 0 := mul_ne_zero hn (by norm_num)
  simp only [Product.get_review_percentage, if_neg htot]
  rw [stars_spec, average_rating]
  congr 1
  rw [hw]
  field_simp
  ring

/-- Witness for C4 at the concrete rating list [5, 4, 4]. -/
theorem review_percentage_eq_rounded_mean_witness :
    (([5, 4, 4] : List Int) ≠ [] ∧ ∀ r ∈ ([5, 4, 4] : List Int), 1 ≤ r ∧ r ≤ 5) ∧
    Product.get_review_percentage [5, 4, 4] = stars_spec [5, 4, 4] :=
  ⟨⟨by decide, by decide⟩,
   review_percentage_eq_rounded_mean [5, 4, 4] (by decide) (by decide)⟩

/-- Claim C5: on the worked example of the spec (26 ones, 6 twos, 34 threes,
70 fours, 296 fives) the review score is exactly 4.4 = 22 / 5. -/
theorem review_percentage_worked_example :
    Product.get_review_percentage worked_example_rates = 22 / 5 := by
  simp only [Product.get_review_percentage, worked_example_rates, List.count_append,
    List.count_replicate, List.length_append, List.length_replicate]
  norm_num [round1, round_eq]

/-- Claim C6: on every enumerated (code, label) pair the Category and Brand
resolvers return the documented label, and on any code outside the
enumeration they return the literal string "Unknown". -/
theorem label_resolution_matches_enumeration :
    (∀ p ∈ Category.CATEGORIES, Category.str p.1 = p.2) ∧
    (∀ p ∈ Brand.BRANDS, Brand.str p.1 = p.2) ∧
    (∀ c : String, c ∉ Category.CATEGORIES.map Prod.fst → Category.str c = "Unknown") ∧
    (∀ c : String, c ∉ Brand.BRANDS.map Prod.fst → Brand.str c = "Unknown") := by
  refine ⟨by decide, by decide, ?_, ?_⟩
  · intro c hc
    simp [Category.CATEGORIES] at hc
    obtain ⟨h1, h2, h3⟩ := hc
    simp [Category.str, Category.CATEGORIES, lookupLabel, h1, h2, h3]
  · intro c hc
    simp [Brand.BRANDS] at hc
    obtain ⟨h1, h2, h3, h4, h5, h6⟩ := hc
    simp [Brand.str, Brand.BRANDS, lookupLabel, h1, h2, h3, h4, h5, h6]

/-- Witness for C6: the pair ("ph", "Phones") resolves to its label, and the
unenumerated code "zz" resolves to "Unknown". -/
theorem label_resolution_matches_enumeration_witness :
    Category.str "ph" = "Phones" ∧ Brand.str "zz" = "Unknown" :=
  ⟨label_resolution_matches_enumeration.1 ("ph", "Phones") (by decide),
   label_resolution_matches_enumeration.2.2.2 "zz" (by decide)⟩

/-- Claim C7: for a product with zero associated reviews the review-score
operation returns 0 (the `ZeroDivisionError` handler) and the count operation
returns 0. -/
theorem zero_reviews_score_and_count :
    Product.get_review_percentage [] = 0 ∧ Product.get_count_total_reviews [] = 0 :=
  ⟨by simp [Product.get_review_percentage], rfl⟩

/-- Claim C8: deleting a product removes every review row that references it
(CASCADE, models.py line 130), removes the product itself, and preserves
referential consistency, so no dangling product reference remains. -/
theorem delete_product_cascades (s : Store) (pid : Nat) (hc : consistent s) :
    (∀ r ∈ (delete_product s pid).reviews, r.product ≠ some pid) ∧
    pid ∉ (delete_product s pid).products ∧
    consistent (delete_product s pid) := by
  refine ⟨?_, ?_, ?_⟩
  · intro r hr
    have h : r ∈ s.reviews ∧ ¬r.product = some pid := by
      simpa [delete_product, apply_on_delete, Review.product_field,
        List.mem_filter] using hr
    exact h.2
  · simp [delete_product]
  · intro r hr q hq
    have h : r ∈ s.reviews ∧ ¬r.product = some pid := by
      simpa [delete_product, apply_on_delete, Review.product_field,
        List.mem_filter] using hr
    have hmem := hc r h.1 q hq
    have hqpid : q ≠ pid := by
      intro h1
      subst h1
      exact h.2 hq
    simp [delete_product, List.mem_filter, hmem, hqpid]

/-- Witness for C8 on a concrete two-product store, deleting product 1. -/
theorem delete_product_cascades_witness :
    consistent store_example ∧
    ((∀ r ∈ (delete_product store_example 1).reviews, r.product ≠ some 1) ∧
     1 ∉ (delete_product store_example 1).products ∧
     consistent (delete_product store_example 1)) := by
  have hc : consistent store_example := by
    intro r hr q hq
    fin_cases hr <;> simp_all [store_example]
  exact ⟨hc, delete_product_cascades store_example 1 hc⟩

/-- Claim C9 counterexample: the claim says a persisted Review holds a
required (non-absent) product reference, but the field is declared null=True
(models.py line 130), so a review row with an absent product reference is
storable. -/
theorem review_absent_product_storable :
    Review.product_field.null = true ∧
    fk_value_storable Review.product_field none = true :=
  ⟨rfl, rfl⟩

/-- Claim C9 amended: a persisted Review references at most one Product, and
the reference is optional: the nullable column stores every reference value,
present or absent. -/
theorem review_product_reference_optional (ref : Option Nat) :
    fk_value_storable Review.product_field ref = true := by
  cases ref <;> rfl

/-- Claim C10: the display string of a product is the first 20 characters of
the title with the character at position 0 uppercased and every remaining
character lowercased; longer titles are silently truncated (applying the
operation to the truncated title gives the same result), and the result
length is the minimum of the title length and 20. -/
theorem product_display_string (title : List Char) :
    Product.str title = display_spec title ∧
    (Product.str title).length = min title.length 20 ∧
    Product.str title = Product.str (title.take 20) := by
  refine ⟨pyCapitalize_eq_idx (title.take 20), ?_, ?_⟩
  · have hlen : ∀ l : List Char, (pyCapitalize l).length = l.length := by
      intro l; cases l <;> simp [pyCapitalize]
    simp [Product.str, hlen, List.length_take, Nat.min_comm]
  · simp [Product.str, List.take_take]

end AppProduct
